import Mathlib

/-!
TriangleSample: program lifecycle and draw call.

Shallow embedding of `app/src/main/cpp/demo/sample/TriangleSample.cpp`.

The sample talks to two collaborators: the OpenGL ES context (through
`glUseProgram`, `glVertexAttribPointer`, `glEnableVertexAttribArray`,
`glDrawArrays`, `glDeleteProgram`) and the shader builder
`GLUtils::CreateProgram`.  Both are outside the file, so every member function
is embedded as a function from the object state to the new object state
together with the list of calls it made on the collaborators, in program order.
-/

/-! ## OpenGL ES scalar types and constants (GLES3/gl3.h) -/

/-- The type `GLuint`: object names issued by the driver; `0` names no object. -/
abbrev GLuint := Nat
/-- The type `GLint`. -/
abbrev GLint := Int
/-- The type `GLsizei`. -/
abbrev GLsizei := Int
/-- The type `GLenum`. -/
abbrev GLenum := Nat
/-- The type `GLboolean`. -/
abbrev GLboolean := Nat
/-- The type `GLfloat`.  The only values the sample ever forms are the literals `0.0f`,
`0.5f` and `-0.5f`; each is a dyadic rational that binary32 represents exactly,
so a literal denotes the rational it spells and no rounding is involved. -/
abbrev GLfloat := ℚ

/-- The constant `GL_FALSE`, defined as `0`. -/
def GL_FALSE : GLboolean := 0
/-- The constant `GL_FLOAT`, defined as `0x1406`. -/
def GL_FLOAT : GLenum := 0x1406
/-- The constant `GL_TRIANGLES`, defined as `0x0004`. -/
def GL_TRIANGLES : GLenum := 0x0004

/-! ## Calls on the collaborators -/

/-- One call made by the sample on a collaborator, with its arguments.  A
pointer argument is recorded as the array it points to.  `CreateProgram` also
records the program name the builder returned. -/
inductive Call where
  | CreateProgram (pVertexShaderSource pFragShaderSource : String) (returned : GLuint)
  | glDeleteProgram (program : GLuint)
  | glUseProgram (program : GLuint)
  | glVertexAttribPointer (index : GLuint) (size : GLint) (type : GLenum)
      (normalized : GLboolean) (stride : GLsizei) (pointer : List GLfloat)
  | glEnableVertexAttribArray (index : GLuint)
  | glDrawArrays (mode : GLenum) (first : GLint) (count : GLsizei)
  deriving DecidableEq, Repr

/-- The calls that go to the graphics context (all but the builder call). -/
def Call.isGL : Call → Bool
  | .CreateProgram _ _ _ => false
  | _ => true

/-- The call is `glUseProgram`. -/
def Call.isUseProgram : Call → Bool
  | .glUseProgram _ => true
  | _ => false

/-- The call is `glDrawArrays`. -/
def Call.isDrawArrays : Call → Bool
  | .glDrawArrays _ _ _ => true
  | _ => false

/-- The call is `glDeleteProgram`. -/
def Call.isDeleteProgram : Call → Bool
  | .glDeleteProgram _ => true
  | _ => false

/-- The call is the builder call. -/
def Call.isCreateProgram : Call → Bool
  | .CreateProgram _ _ _ => true
  | _ => false

/-- Modelled from the spec: the declaration of `GLUtils::CreateProgram`
(`GLUtils.h` is absent).  The spec gives the builder the result
`(programHandle, vertexShaderHandle, fragmentShaderHandle)`; at the call site the
first is the return value and the other two are the final values of the
arguments `m_VertexShader` and `m_FragmentShader`, passed by reference. -/
structure BuildResult where
  program : GLuint
  vertexShaderHandle : GLuint
  fragShaderHandle : GLuint
  deriving DecidableEq, Repr

/-- The behaviour of `GLUtils::CreateProgram` at one call: from the two source
texts and the current values of the two by-reference shader names to its
result.  The builder is a parameter: nothing is assumed about it. -/
abbrev Builder := String → String → GLuint → GLuint → BuildResult

/-! ## The sample -/

/-- The data members `TriangleSample.cpp` reads and writes. -/
structure TriangleSample where
  m_ProgramObj : GLuint
  m_VertexShader : GLuint
  m_FragmentShader : GLuint
  deriving DecidableEq, Repr

/-- Modelled from the spec: the member declarations (`TriangleSample.h` and its
base class are absent).  The spec gives `programHandle` the default `0`
("`programHandle` (ProgramHandle, default 0)") and names no default for the two
stage handles, which are therefore left arbitrary. -/
def TriangleSample.memberDefaults (vertexShader fragmentShader : GLuint) : TriangleSample :=
  { m_ProgramObj := 0, m_VertexShader := vertexShader, m_FragmentShader := fragmentShader }

/-- Constructor `TriangleSample::TriangleSample()`: the body is empty, so the object is the
one the member declarations produced and no call is made. -/
def TriangleSample.ctor (members : TriangleSample) : TriangleSample × List Call :=
  (members, [])

/-- Destructor `TriangleSample::~TriangleSample()`: `glDeleteProgram(m_ProgramObj)` under
the guard `if (m_ProgramObj)`; the member is not written. -/
def TriangleSample.dtor (s : TriangleSample) : TriangleSample × List Call :=
  if s.m_ProgramObj ≠ 0 then
    (s, [Call.glDeleteProgram s.m_ProgramObj])
  else
    (s, [])

/-- The local `vShaderStr` of `init()`. -/
def vShaderStr : String :=
    "#version 300 es                          \n" ++
    "layout(location = 0) in vec4 vPosition;  \n" ++
    "void main()                              \n" ++
    "\x7b                                        \n" ++
    "   gl_Position = vPosition;              \n" ++
    "\x7d                                        \n"

/-- The local `fShaderStr` of `init()`. -/
def fShaderStr : String :=
    "#version 300 es                              \n" ++
    "precision mediump float;                     \n" ++
    "out vec4 fragColor;                          \n" ++
    "void main()                                  \n" ++
    "\x7b                                            \n" ++
    "   fragColor = vec4 ( 1.0, 0.0, 0.0, 1.0 );  \n" ++
    "\x7d                                            \n"

/-- Member function `TriangleSample::init()`:
`m_ProgramObj = GLUtils::CreateProgram(vShaderStr, fShaderStr, m_VertexShader, m_FragmentShader);` -/
def TriangleSample.init (CreateProgram : Builder) (s : TriangleSample) :
    TriangleSample × List Call :=
  let r := CreateProgram vShaderStr fShaderStr s.m_VertexShader s.m_FragmentShader
  ({ m_ProgramObj := r.program,
     m_VertexShader := r.vertexShaderHandle,
     m_FragmentShader := r.fragShaderHandle },
   [Call.CreateProgram vShaderStr fShaderStr r.program])

/-- Member function `TriangleSample::draw()`: the local array is built first, then
the guard `if (m_ProgramObj == 0) return;`, then the four context calls. -/
def TriangleSample.draw (s : TriangleSample) : TriangleSample × List Call :=
  let vVertices : List GLfloat :=
    [ 0.0,  0.5, 0.0,
     -0.5, -0.5, 0.0,
      0.5, -0.5, 0.0 ]
  if s.m_ProgramObj = 0 then
    (s, [])
  else
    (s, [ Call.glUseProgram s.m_ProgramObj,
          Call.glVertexAttribPointer 0 3 GL_FLOAT GL_FALSE 0 vVertices,
          Call.glEnableVertexAttribArray 0,
          Call.glDrawArrays GL_TRIANGLES 0 3 ])

/-! ## The driver

The render loop is outside the file; the spec gives its shape: construct, `init()`,
`draw()` any number of times, destroy. -/

/-- One call the driver makes between construction and destruction.  An `init`
carries the behaviour the builder shows at that call. -/
inductive Op where
  | init (CreateProgram : Builder)
  | draw

/-- Run one driver call. -/
def TriangleSample.step (s : TriangleSample) : Op → TriangleSample × List Call
  | .init b => s.init b
  | .draw => s.draw

/-- Run a sequence of driver calls, concatenating the calls made. -/
def TriangleSample.run (s : TriangleSample) : List Op → TriangleSample × List Call
  | [] => (s, [])
  | op :: ops =>
    let r1 := s.step op
    let r2 := r1.1.run ops
    (r2.1, r1.2 ++ r2.2)

/-- Call `draw()` `n` times in a row. -/
def TriangleSample.drawN (s : TriangleSample) : Nat → TriangleSample × List Call
  | 0 => (s, [])
  | n + 1 =>
    let r1 := s.draw
    let r2 := r1.1.drawN n
    (r2.1, r1.2 ++ r2.2)

/-- The whole lifecycle of the spec: construct, `init()` once, `draw()` `n`
times, destroy.  Returns every call made, in order. -/
def lifecycle (members : TriangleSample) (CreateProgram : Builder) (n : Nat) : List Call :=
  let r0 := TriangleSample.ctor members
  let r1 := r0.1.init CreateProgram
  let r2 := r1.1.drawN n
  let r3 := r2.1.dtor
  r0.2 ++ r1.2 ++ r2.2 ++ r3.2

/-- Run the destructor body twice on the same object. -/
def TriangleSample.dtorTwice (s : TriangleSample) : TriangleSample × List Call :=
  let r1 := s.dtor
  let r2 := r1.1.dtor
  (r2.1, r1.2 ++ r2.2)

/-- The program name returned by the last builder call in a trace, if any. -/
def lastBuilt : List Call → Option GLuint
  | [] => none
  | c :: cs =>
    match lastBuilt cs with
    | some h => some h
    | none =>
      match c with
      | .CreateProgram _ _ p => some p
      | _ => none

/-- The four calls of a `draw()` that passes the guard, for program `h`. -/
def drawCalls (h : GLuint) : List Call :=
  [ Call.glUseProgram h,
    Call.glVertexAttribPointer 0 3 GL_FLOAT GL_FALSE 0
      [0, 1/2, 0, -1/2, -1/2, 0, 1/2, -1/2, 0],
    Call.glEnableVertexAttribArray 0,
    Call.glDrawArrays GL_TRIANGLES 0 3 ]

/-- Forward check of a trace against the program name currently stored (`cur`):
a builder call replaces `cur` by the name it returned, and every `glUseProgram`
must carry a nonzero name equal to `cur`. -/
def useProgramOk (cur : GLuint) : List Call → Bool
  | [] => true
  | .CreateProgram _ _ p :: cs => useProgramOk p cs
  | .glUseProgram h :: cs => h != 0 && h == cur && useProgramOk cur cs
  | _ :: cs => useProgramOk cur cs

/-! ## Basic facts about the member functions -/

theorem TriangleSample.draw_fst (s : TriangleSample) : s.draw.1 = s := by
  unfold TriangleSample.draw
  split <;> rfl

theorem TriangleSample.draw_snd_of_zero (s : TriangleSample) (h : s.m_ProgramObj = 0) :
    s.draw.2 = [] := by
  simp [TriangleSample.draw, h]

theorem TriangleSample.draw_snd_of_ne (s : TriangleSample) (h : s.m_ProgramObj ≠ 0) :
    s.draw.2 = drawCalls s.m_ProgramObj := by
  simp only [TriangleSample.draw, drawCalls, if_neg h]
  norm_num

theorem TriangleSample.dtor_fst (s : TriangleSample) : s.dtor.1 = s := by
  unfold TriangleSample.dtor
  split <;> rfl

theorem TriangleSample.dtor_snd_of_zero (s : TriangleSample) (h : s.m_ProgramObj = 0) :
    s.dtor.2 = [] := by
  simp [TriangleSample.dtor, h]

theorem TriangleSample.dtor_snd_of_ne (s : TriangleSample) (h : s.m_ProgramObj ≠ 0) :
    s.dtor.2 = [Call.glDeleteProgram s.m_ProgramObj] := by
  simp [TriangleSample.dtor, h]

theorem TriangleSample.drawN_fst (s : TriangleSample) (n : Nat) : (s.drawN n).1 = s := by
  induction n with
  | zero => rfl
  | succ n ih => simp [TriangleSample.drawN, TriangleSample.draw_fst, ih]

theorem TriangleSample.drawN_snd_of_zero (s : TriangleSample) (h : s.m_ProgramObj = 0)
    (n : Nat) : (s.drawN n).2 = [] := by
  induction n with
  | zero => rfl
  | succ n ih =>
    simp [TriangleSample.drawN, TriangleSample.draw_fst, ih,
      TriangleSample.draw_snd_of_zero s h]

theorem TriangleSample.drawN_snd_of_ne (s : TriangleSample) (h : s.m_ProgramObj ≠ 0)
    (n : Nat) : (s.drawN n).2 = (List.replicate n (drawCalls s.m_ProgramObj)).flatten := by
  induction n with
  | zero => rfl
  | succ n ih =>
    simp [TriangleSample.drawN, TriangleSample.draw_fst, ih,
      TriangleSample.draw_snd_of_ne s h, List.replicate_succ]

theorem TriangleSample.run_replicate_draw (s : TriangleSample) (n : Nat) :
    s.run (List.replicate n Op.draw) = s.drawN n := by
  induction n with
  | zero => rfl
  | succ n ih =>
    simp [List.replicate_succ, TriangleSample.run, TriangleSample.drawN, TriangleSample.step,
      TriangleSample.draw_fst, ih]

theorem useProgramOk_drawCalls (h : GLuint) (hne : h ≠ 0) (t : List Call) :
    useProgramOk h (drawCalls h ++ t) = useProgramOk h t := by
  simp [drawCalls, useProgramOk, hne]

theorem TriangleSample.useProgramOk_run (s : TriangleSample) (ops : List Op) :
    useProgramOk s.m_ProgramObj (s.run ops).2 = true := by
  induction ops generalizing s with
  | nil => rfl
  | cons op ops ih =>
    cases op with
    | init b =>
      have := ih (s.init b).1
      simpa [TriangleSample.run, TriangleSample.step, TriangleSample.init, useProgramOk]
        using this
    | draw =>
      by_cases h : s.m_ProgramObj = 0
      · simpa [TriangleSample.run, TriangleSample.step, TriangleSample.draw_fst,
          TriangleSample.draw_snd_of_zero s h] using ih s
      · simpa [TriangleSample.run, TriangleSample.step, TriangleSample.draw_fst,
          TriangleSample.draw_snd_of_ne s h, useProgramOk_drawCalls _ h] using ih s

theorem lastBuilt_cons_getD (cur : GLuint) (c : Call) (cs : List Call) :
    (lastBuilt (c :: cs)).getD cur =
      (lastBuilt cs).getD (match c with
        | .CreateProgram _ _ p => p
        | _ => cur) := by
  cases hcs : lastBuilt cs with
  | some h => simp [lastBuilt, hcs]
  | none => cases c <;> simp [lastBuilt, hcs]

theorem useProgramOk_split (cur : GLuint) (pre post : List Call) (h : GLuint)
    (hok : useProgramOk cur (pre ++ Call.glUseProgram h :: post) = true) :
    h ≠ 0 ∧ h = (lastBuilt pre).getD cur := by
  induction pre generalizing cur with
  | nil =>
    simp [useProgramOk] at hok
    exact ⟨hok.1.1, by simpa [lastBuilt] using hok.1.2⟩
  | cons c cs ih =>
    rw [lastBuilt_cons_getD]
    cases c with
    | CreateProgram a b p => exact ih p (by simpa [useProgramOk] using hok)
    | glUseProgram q =>
      simp [useProgramOk] at hok
      exact ih cur hok.2
    | glDeleteProgram q => exact ih cur (by simpa [useProgramOk] using hok)
    | glVertexAttribPointer a b c d e f => exact ih cur (by simpa [useProgramOk] using hok)
    | glEnableVertexAttribArray a => exact ih cur (by simpa [useProgramOk] using hok)
    | glDrawArrays a b c => exact ih cur (by simpa [useProgramOk] using hok)

theorem TriangleSample.run_vertexData (s : TriangleSample) (ops : List Op)
    (index : GLuint) (size : GLint) (type : GLenum) (normalized : GLboolean)
    (stride : GLsizei) (pointer : List GLfloat)
    (hmem : Call.glVertexAttribPointer index size type normalized stride pointer ∈
      (s.run ops).2) :
    pointer = [0, 1/2, 0, -1/2, -1/2, 0, 1/2, -1/2, 0] := by
  induction ops generalizing s with
  | nil => simp [TriangleSample.run] at hmem
  | cons op ops ih =>
    simp only [TriangleSample.run, List.mem_append] at hmem
    rcases hmem with hmem | hmem
    · cases op with
      | init b => simp [TriangleSample.step, TriangleSample.init] at hmem
      | draw =>
        by_cases h : s.m_ProgramObj = 0
        · simp [TriangleSample.step, TriangleSample.draw_snd_of_zero s h] at hmem
        · simp [TriangleSample.step, TriangleSample.draw_snd_of_ne s h, drawCalls] at hmem
          rw [hmem.2.2.2.2.2]
          norm_num
    · exact ih _ hmem

theorem countP_flatten_replicate_drawCalls_delete (h : GLuint) (n : Nat) :
    ((List.replicate n (drawCalls h)).flatten).countP Call.isDeleteProgram = 0 := by
  induction n with
  | zero => rfl
  | succ n ih =>
    simp [List.replicate_succ, List.countP_append, ih, drawCalls, Call.isDeleteProgram]

theorem filter_isGL_flatten_replicate_drawCalls (h : GLuint) (n : Nat) :
    ((List.replicate n (drawCalls h)).flatten).filter Call.isGL =
      (List.replicate n (drawCalls h)).flatten := by
  induction n with
  | zero => rfl
  | succ n ih =>
    simp only [List.replicate_succ, List.flatten_cons, List.filter_append, ih]
    simp [drawCalls, Call.isGL]

theorem not_mem_delete_flatten_replicate_drawCalls (h p : GLuint) (n : Nat) :
    Call.glDeleteProgram p ∉ (List.replicate n (drawCalls h)).flatten := by
  induction n with
  | zero => simp
  | succ n ih =>
    simp only [List.replicate_succ, List.flatten_cons, List.mem_append, not_or]
    exact ⟨by simp [drawCalls], ih⟩

/-- If `x` does not occur in `l`, the only way to split `l ++ [x]` around an `x`
is at the very end. -/
theorem split_at_last_of_not_mem {α : Type} (l pre post : List α) (x : α) (hx : x ∉ l)
    (hsplit : l ++ [x] = pre ++ x :: post) : pre = l ∧ post = [] := by
  induction l generalizing pre with
  | nil =>
    cases pre with
    | nil => simpa using hsplit
    | cons a as =>
      simp only [List.nil_append, List.cons_append, List.cons.injEq] at hsplit
      have := hsplit.2
      cases as <;> simp at this
  | cons a l ih =>
    cases pre with
    | nil =>
      simp only [List.cons_append, List.nil_append, List.cons.injEq] at hsplit
      exact absurd (hsplit.1 ▸ List.mem_cons_self a l) hx
    | cons b bs =>
      simp only [List.cons_append, List.cons.injEq] at hsplit
      have := ih bs (fun hmem => hx (List.mem_cons_of_mem _ hmem)) hsplit.2
      exact ⟨by rw [hsplit.1, this.1], this.2⟩

/-! ## The claims -/

/-- C1: for every sample whose `m_ProgramObj` is 0, `draw()` makes no call at
all (so in particular none of `glUseProgram`, `glVertexAttribPointer`,
`glEnableVertexAttribArray`, `glDrawArrays`) and leaves the sample unchanged. -/
theorem C1_draw_zero_handle_noop (s : TriangleSample) (h : s.m_ProgramObj = 0) :
    s.draw = (s, []) := by
  simp [TriangleSample.draw, h]

theorem C1_draw_zero_handle_noop_witness :
    (⟨0, 5, 6⟩ : TriangleSample).m_ProgramObj = 0 ∧
      (⟨0, 5, 6⟩ : TriangleSample).draw = (⟨0, 5, 6⟩, []) :=
  ⟨rfl, C1_draw_zero_handle_noop ⟨0, 5, 6⟩ rfl⟩

/-- C2: for every sample whose `m_ProgramObj` is a nonzero `h`, `draw()` makes
exactly four calls, in this order: `glUseProgram(h)`,
`glVertexAttribPointer(0, 3, GL_FLOAT, GL_FALSE, 0, vVertices)`,
`glEnableVertexAttribArray(0)`, `glDrawArrays(GL_TRIANGLES, 0, 3)`. -/
theorem C2_draw_nonzero_handle_calls (s : TriangleSample) (h : s.m_ProgramObj ≠ 0) :
    s.draw.2 =
      [ Call.glUseProgram s.m_ProgramObj,
        Call.glVertexAttribPointer 0 3 GL_FLOAT GL_FALSE 0
          [0.0, 0.5, 0.0, -0.5, -0.5, 0.0, 0.5, -0.5, 0.0],
        Call.glEnableVertexAttribArray 0,
        Call.glDrawArrays GL_TRIANGLES 0 3 ] ∧
    s.draw.2.length = 4 := by
  simp [TriangleSample.draw, h]

theorem C2_draw_nonzero_handle_calls_witness :
    (⟨7, 5, 6⟩ : TriangleSample).m_ProgramObj ≠ 0 ∧
      (⟨7, 5, 6⟩ : TriangleSample).draw.2 =
        [ Call.glUseProgram 7,
          Call.glVertexAttribPointer 0 3 GL_FLOAT GL_FALSE 0
            [0.0, 0.5, 0.0, -0.5, -0.5, 0.0, 0.5, -0.5, 0.0],
          Call.glEnableVertexAttribArray 0,
          Call.glDrawArrays GL_TRIANGLES 0 3 ] :=
  ⟨by decide, (C2_draw_nonzero_handle_calls ⟨7, 5, 6⟩ (by decide)).1⟩

/-- C3: the destructor on a sample whose `m_ProgramObj` is a nonzero `h` makes
exactly one call, `glDeleteProgram(h)`; on a sample whose `m_ProgramObj` is 0 it
makes no call, so no `glDeleteProgram`. -/
theorem C3_dtor_calls (s : TriangleSample) :
    (s.m_ProgramObj ≠ 0 → s.dtor.2 = [Call.glDeleteProgram s.m_ProgramObj]) ∧
    (s.m_ProgramObj = 0 → s.dtor.2 = [] ∧ s.dtor.2.countP Call.isDeleteProgram = 0) := by
  refine ⟨fun h => ?_, fun h => ?_⟩
  · simp [TriangleSample.dtor, h]
  · simp [TriangleSample.dtor, h]

theorem C3_dtor_calls_witness :
    ((⟨7, 5, 6⟩ : TriangleSample).m_ProgramObj ≠ 0 ∧
      (⟨7, 5, 6⟩ : TriangleSample).dtor.2 = [Call.glDeleteProgram 7]) ∧
    ((⟨0, 5, 6⟩ : TriangleSample).m_ProgramObj = 0 ∧
      (⟨0, 5, 6⟩ : TriangleSample).dtor.2 = []) :=
  ⟨⟨by decide, (C3_dtor_calls ⟨7, 5, 6⟩).1 (by decide)⟩,
   ⟨rfl, ((C3_dtor_calls ⟨0, 5, 6⟩).2 rfl).1⟩⟩

/-- C4: for every prior sample and every builder behaviour, `init()` calls
`GLUtils::CreateProgram` exactly once, with `vShaderStr` first and `fShaderStr`
second; afterwards `m_ProgramObj`, `m_VertexShader`, `m_FragmentShader` are the
three values the builder handed back; `m_ProgramObj` is nonzero afterwards iff
the builder returned a nonzero program; and `init()` makes no call on the
graphics context. -/
theorem C4_init_stores_builder_result (CreateProgram : Builder) (s : TriangleSample) :
    (s.init CreateProgram).2 =
      [Call.CreateProgram vShaderStr fShaderStr
        (CreateProgram vShaderStr fShaderStr s.m_VertexShader s.m_FragmentShader).program] ∧
    (s.init CreateProgram).2.countP Call.isCreateProgram = 1 ∧
    (s.init CreateProgram).1.m_ProgramObj =
      (CreateProgram vShaderStr fShaderStr s.m_VertexShader s.m_FragmentShader).program ∧
    (s.init CreateProgram).1.m_VertexShader =
      (CreateProgram vShaderStr fShaderStr s.m_VertexShader
        s.m_FragmentShader).vertexShaderHandle ∧
    (s.init CreateProgram).1.m_FragmentShader =
      (CreateProgram vShaderStr fShaderStr s.m_VertexShader
        s.m_FragmentShader).fragShaderHandle ∧
    ((s.init CreateProgram).1.m_ProgramObj ≠ 0 ↔
      (CreateProgram vShaderStr fShaderStr s.m_VertexShader s.m_FragmentShader).program ≠ 0) ∧
    (s.init CreateProgram).2.filter Call.isGL = [] := by
  simp [TriangleSample.init, Call.isCreateProgram, Call.isGL]

/-- C5: a freshly constructed sample (constructor run on the declared members,
`init()` never called) has `m_ProgramObj = 0`, and `draw()` on it makes no call
and leaves it unchanged. -/
theorem C5_fresh_sample_draw_noop (vertexShader fragmentShader : GLuint) :
    (TriangleSample.ctor (TriangleSample.memberDefaults vertexShader fragmentShader)).2 = [] ∧
    (TriangleSample.ctor
      (TriangleSample.memberDefaults vertexShader fragmentShader)).1.m_ProgramObj = 0 ∧
    (TriangleSample.ctor (TriangleSample.memberDefaults vertexShader fragmentShader)).1.draw =
      ((TriangleSample.ctor (TriangleSample.memberDefaults vertexShader fragmentShader)).1, []) := by
  simp [TriangleSample.ctor, TriangleSample.memberDefaults, TriangleSample.draw]

/-- C6: if the builder fails (returns program 0), then after `init()`
`m_ProgramObj` is 0 and, for every `n`, `init()` followed by `n` calls of
`draw()` makes the builder call and nothing else: no `glUseProgram`, no
`glDrawArrays`, no call on the graphics context at all; `m_ProgramObj` is still
0 at the end. -/
theorem C6_failed_build_draws_nothing (CreateProgram : Builder) (s : TriangleSample)
    (hfail :
      (CreateProgram vShaderStr fShaderStr s.m_VertexShader s.m_FragmentShader).program = 0)
    (n : Nat) :
    (s.init CreateProgram).1.m_ProgramObj = 0 ∧
    (s.run (Op.init CreateProgram :: List.replicate n Op.draw)).2 =
      [Call.CreateProgram vShaderStr fShaderStr 0] ∧
    (s.run (Op.init CreateProgram :: List.replicate n Op.draw)).2.countP
      Call.isUseProgram = 0 ∧
    (s.run (Op.init CreateProgram :: List.replicate n Op.draw)).2.countP
      Call.isDrawArrays = 0 ∧
    (s.run (Op.init CreateProgram :: List.replicate n Op.draw)).2.filter Call.isGL = [] ∧
    (s.run (Op.init CreateProgram :: List.replicate n Op.draw)).1.m_ProgramObj = 0 := by
  have h0 : (s.init CreateProgram).1.m_ProgramObj = 0 := by
    simpa [TriangleSample.init] using hfail
  have hrun : s.run (Op.init CreateProgram :: List.replicate n Op.draw) =
      ((s.init CreateProgram).1, [Call.CreateProgram vShaderStr fShaderStr 0]) := by
    simp only [TriangleSample.run, TriangleSample.step, TriangleSample.run_replicate_draw,
      TriangleSample.drawN_fst, TriangleSample.drawN_snd_of_zero _ h0]
    simp [TriangleSample.init, hfail]
  rw [hrun]
  exact ⟨h0, rfl, rfl, rfl, rfl, h0⟩

theorem C6_failed_build_draws_nothing_witness :
    ((fun _ _ _ _ => ⟨0, 3, 0⟩ : Builder) vShaderStr fShaderStr 5 6).program = 0 ∧
    (TriangleSample.run ⟨7, 5, 6⟩
      (Op.init (fun _ _ _ _ => ⟨0, 3, 0⟩) :: List.replicate 2 Op.draw)).2 =
      [Call.CreateProgram vShaderStr fShaderStr 0] :=
  ⟨rfl, (C6_failed_build_draws_nothing (fun _ _ _ _ => ⟨0, 3, 0⟩) ⟨7, 5, 6⟩ rfl 2).2.1⟩

/-- C7: in any sequence of `init()` and `draw()` calls from any sample state,
every `glVertexAttribPointer` call made carries the same vertex data: the nine
values `0.0, 0.5, 0.0, -0.5, -0.5, 0.0, 0.5, -0.5, 0.0` (three vertices of three
coordinates), that is `0, 1/2, 0, -1/2, -1/2, 0, 1/2, -1/2, 0`. -/
theorem C7_vertex_data_fixed (s : TriangleSample) (ops : List Op)
    (index : GLuint) (size : GLint) (type : GLenum) (normalized : GLboolean)
    (stride : GLsizei) (pointer : List GLfloat)
    (hmem : Call.glVertexAttribPointer index size type normalized stride pointer ∈
      (s.run ops).2) :
    pointer = [0.0, 0.5, 0.0, -0.5, -0.5, 0.0, 0.5, -0.5, 0.0] ∧
    pointer = [0, 1/2, 0, -1/2, -1/2, 0, 1/2, -1/2, 0] ∧
    pointer.length = 3 * 3 := by
  have h := TriangleSample.run_vertexData s ops index size type normalized stride pointer hmem
  subst h
  refine ⟨?_, rfl, rfl⟩
  norm_num

theorem C7_vertex_data_fixed_witness :
    Call.glVertexAttribPointer 0 3 GL_FLOAT GL_FALSE 0
        [0, 1/2, 0, -1/2, -1/2, 0, 1/2, -1/2, 0] ∈
      (TriangleSample.run ⟨7, 5, 6⟩ [Op.draw, Op.draw]).2 ∧
    ([0, 1/2, 0, -1/2, -1/2, 0, 1/2, -1/2, 0] : List GLfloat) =
      [0.0, 0.5, 0.0, -0.5, -0.5, 0.0, 0.5, -0.5, 0.0] :=
  have hmem : Call.glVertexAttribPointer 0 3 GL_FLOAT GL_FALSE 0
      [0, 1/2, 0, -1/2, -1/2, 0, 1/2, -1/2, 0] ∈
      (TriangleSample.run ⟨7, 5, 6⟩ [Op.draw, Op.draw]).2 := by
    simp only [TriangleSample.run, TriangleSample.step, TriangleSample.draw_fst,
      TriangleSample.draw_snd_of_ne ⟨7, 5, 6⟩ (by decide)]
    simp [drawCalls]
  ⟨hmem, (C7_vertex_data_fixed ⟨7, 5, 6⟩ [Op.draw, Op.draw] 0 3 GL_FLOAT GL_FALSE 0 _ hmem).1⟩

/-- C8: for every finite sequence of `init()` and `draw()` calls on a freshly
constructed sample, whatever the builder returns at each `init()`, every
`glUseProgram` in the resulting trace carries a nonzero program name, and that
name is the one returned by the most recent builder call before it. -/
theorem C8_use_program_valid_handle (vertexShader fragmentShader : GLuint) (ops : List Op)
    (pre post : List Call) (h : GLuint)
    (hsplit :
      ((TriangleSample.ctor (TriangleSample.memberDefaults vertexShader fragmentShader)).1.run
        ops).2 = pre ++ Call.glUseProgram h :: post) :
    h ≠ 0 ∧ lastBuilt pre = some h := by
  have hok := TriangleSample.useProgramOk_run
    (TriangleSample.ctor (TriangleSample.memberDefaults vertexShader fragmentShader)).1 ops
  rw [hsplit] at hok
  have hs := useProgramOk_split _ pre post h hok
  refine ⟨hs.1, ?_⟩
  cases hl : lastBuilt pre with
  | none =>
    rw [hl] at hs
    exact absurd (by simpa [TriangleSample.ctor, TriangleSample.memberDefaults] using hs.2) hs.1
  | some q =>
    rw [hl] at hs
    simpa using hs.2.symm

theorem C8_use_program_valid_handle_witness :
    ((TriangleSample.ctor (TriangleSample.memberDefaults 5 6)).1.run
        [Op.draw, Op.init (fun _ _ _ _ => ⟨0, 1, 2⟩), Op.draw,
         Op.init (fun _ _ _ _ => ⟨9, 1, 2⟩), Op.draw]).2 =
      [Call.CreateProgram vShaderStr fShaderStr 0, Call.CreateProgram vShaderStr fShaderStr 9] ++
        Call.glUseProgram 9 ::
          [Call.glVertexAttribPointer 0 3 GL_FLOAT GL_FALSE 0
             [0, 1/2, 0, -1/2, -1/2, 0, 1/2, -1/2, 0],
           Call.glEnableVertexAttribArray 0,
           Call.glDrawArrays GL_TRIANGLES 0 3] ∧
    ((9 : GLuint) ≠ 0 ∧
      lastBuilt [Call.CreateProgram vShaderStr fShaderStr 0,
        Call.CreateProgram vShaderStr fShaderStr 9] = some 9) :=
  have hsplit : ((TriangleSample.ctor (TriangleSample.memberDefaults 5 6)).1.run
        [Op.draw, Op.init (fun _ _ _ _ => ⟨0, 1, 2⟩), Op.draw,
         Op.init (fun _ _ _ _ => ⟨9, 1, 2⟩), Op.draw]).2 =
      [Call.CreateProgram vShaderStr fShaderStr 0, Call.CreateProgram vShaderStr fShaderStr 9] ++
        Call.glUseProgram 9 ::
          [Call.glVertexAttribPointer 0 3 GL_FLOAT GL_FALSE 0
             [0, 1/2, 0, -1/2, -1/2, 0, 1/2, -1/2, 0],
           Call.glEnableVertexAttribArray 0,
           Call.glDrawArrays GL_TRIANGLES 0 3] := by
    simp [TriangleSample.run, TriangleSample.step, TriangleSample.ctor,
      TriangleSample.memberDefaults, TriangleSample.init, TriangleSample.draw]
    norm_num
  ⟨hsplit, C8_use_program_valid_handle 5 6 _ _ _ 9 hsplit⟩

/-- C9: over the lifecycle construct, `init()` once, `draw()` `n` times,
destroy, with the builder returning a nonzero program `h`: after the builder
call, the calls made are `n` repetitions of the four-call draw sequence for `h`
followed by one `glDeleteProgram(h)`, which is the last call.  `draw()` leaves
`m_ProgramObj` unchanged, `glDeleteProgram` is called exactly once, and nothing
follows it. -/
theorem C9_lifecycle_trace (members : TriangleSample) (CreateProgram : Builder) (n : Nat)
    (h : GLuint)
    (hres :
      (CreateProgram vShaderStr fShaderStr members.m_VertexShader
        members.m_FragmentShader).program = h)
    (hne : h ≠ 0) :
    lifecycle members CreateProgram n =
      Call.CreateProgram vShaderStr fShaderStr h ::
        ((List.replicate n (drawCalls h)).flatten ++ [Call.glDeleteProgram h]) ∧
    (lifecycle members CreateProgram n).filter Call.isGL =
      (List.replicate n (drawCalls h)).flatten ++ [Call.glDeleteProgram h] ∧
    (∀ s : TriangleSample, s.draw.1.m_ProgramObj = s.m_ProgramObj) ∧
    (lifecycle members CreateProgram n).countP Call.isDeleteProgram = 1 ∧
    (lifecycle members CreateProgram n).getLast? = some (Call.glDeleteProgram h) ∧
    (∀ pre post : List Call,
      lifecycle members CreateProgram n = pre ++ Call.glDeleteProgram h :: post →
        post = []) := by
  have h1 : (members.init CreateProgram).1.m_ProgramObj = h := by
    simpa [TriangleSample.init] using hres
  have hne1 : (members.init CreateProgram).1.m_ProgramObj ≠ 0 := by rw [h1]; exact hne
  have htrace : lifecycle members CreateProgram n =
      Call.CreateProgram vShaderStr fShaderStr h ::
        ((List.replicate n (drawCalls h)).flatten ++ [Call.glDeleteProgram h]) := by
    simp only [lifecycle, TriangleSample.ctor, TriangleSample.drawN_fst,
      TriangleSample.drawN_snd_of_ne _ hne1, TriangleSample.dtor_snd_of_ne _ hne1, h1]
    simp [TriangleSample.init, hres]
  refine ⟨htrace, ?_, fun s => by rw [TriangleSample.draw_fst], ?_, ?_, ?_⟩
  · rw [htrace, List.filter_cons, List.filter_append,
      filter_isGL_flatten_replicate_drawCalls]
    rfl
  · rw [htrace, List.countP_cons, List.countP_append,
      countP_flatten_replicate_drawCalls_delete]
    rfl
  · rw [htrace, ← List.cons_append, List.getLast?_concat]
  · intro pre post hsplit
    rw [htrace, ← List.cons_append] at hsplit
    refine (split_at_last_of_not_mem _ pre post _ ?_ hsplit).2
    simp only [List.mem_cons, not_or]
    exact ⟨by simp, not_mem_delete_flatten_replicate_drawCalls h h n⟩

theorem C9_lifecycle_trace_witness :
    ((fun _ _ _ _ => ⟨9, 1, 2⟩ : Builder) vShaderStr fShaderStr 5 6).program = 9 ∧
    (9 : GLuint) ≠ 0 ∧
    lifecycle ⟨0, 5, 6⟩ (fun _ _ _ _ => ⟨9, 1, 2⟩) 2 =
      Call.CreateProgram vShaderStr fShaderStr 9 ::
        ((List.replicate 2 (drawCalls 9)).flatten ++ [Call.glDeleteProgram 9]) :=
  ⟨rfl, by decide,
    (C9_lifecycle_trace ⟨0, 5, 6⟩ (fun _ _ _ _ => ⟨9, 1, 2⟩) 2 9 rfl (by decide)).1⟩

/-- C10: the destructor body does not reset `m_ProgramObj` (it leaves the sample
unchanged), so for every sample with a nonzero `m_ProgramObj = h`, running it
twice makes two `glDeleteProgram(h)` calls; running it twice makes the same
calls as running it once exactly when `m_ProgramObj` is 0. -/
theorem C10_dtor_no_double_release_guard (s : TriangleSample) :
    s.dtor.1 = s ∧
    (s.m_ProgramObj ≠ 0 →
      s.dtorTwice.2 =
        [Call.glDeleteProgram s.m_ProgramObj, Call.glDeleteProgram s.m_ProgramObj]) ∧
    (s.dtorTwice.2 = s.dtor.2 ↔ s.m_ProgramObj = 0) := by
  refine ⟨TriangleSample.dtor_fst s, fun h => ?_, ?_⟩
  · simp [TriangleSample.dtorTwice, TriangleSample.dtor_fst,
      TriangleSample.dtor_snd_of_ne s h]
  · by_cases h : s.m_ProgramObj = 0
    · simp [TriangleSample.dtorTwice, TriangleSample.dtor_fst,
        TriangleSample.dtor_snd_of_zero s h, h]
    · simp [TriangleSample.dtorTwice, TriangleSample.dtor_fst,
        TriangleSample.dtor_snd_of_ne s h, h]

theorem C10_dtor_no_double_release_guard_witness :
    (⟨7, 5, 6⟩ : TriangleSample).m_ProgramObj ≠ 0 ∧
    (⟨7, 5, 6⟩ : TriangleSample).dtorTwice.2 =
      [Call.glDeleteProgram 7, Call.glDeleteProgram 7] ∧
    ((⟨0, 5, 6⟩ : TriangleSample).dtorTwice.2 = (⟨0, 5, 6⟩ : TriangleSample).dtor.2) :=
  ⟨by decide, (C10_dtor_no_double_release_guard ⟨7, 5, 6⟩).2.1 (by decide),
    (C10_dtor_no_double_release_guard ⟨0, 5, 6⟩).2.2.mpr rfl⟩
